import Mathlib

/-!
Verification of the financeapp repository's price-series model and
performance-calculation logic (src/core.py, src/financeapp.py).

Modelling conventions for the shallow embedding:

* Python floats are modelled as rationals (`ℚ`).  Every concrete price in the
  claims (78.42, 100.0, 80.0, ...) is exactly representable, so no rounding
  behaviour of binary floats is involved.
* Python `datetime.date` values are modelled as ordinal day numbers (`ℤ`,
  days since 1970-01-01); `timedelta(days = n)` subtraction is integer
  subtraction.  `daysFromCivil` converts a calendar date `(y, m, d)` to its
  ordinal and `dateFmt` renders an ordinal back to the `yyyy-mm-dd` string,
  matching Python's `str(date)` (proleptic Gregorian algorithms).
* A price may be Python `None`: prices are `Option ℚ`.  Python truthiness of
  a price (`if price:`) is false for `None` and for `0.0` (`truthy`).
* Python runtime exceptions raised by the embedded code are modelled with
  `Except PyErr`; `Except.ok` is a normal return.
* `Fund.__init__` parses each date string with `strptime`; the embedding
  `Fund.init` receives the dates already as ordinals, and performs the same
  `.upper()` normalisation of `symbol`, `currency` and `instrument_type`.
-/

namespace FinanceApp

/-- Python runtime errors the embedded code can raise. -/
inductive PyErr where
  | indexError
  | keyError
  | typeError
  | coreError
  deriving DecidableEq, Repr

/-- Python truthiness of a price value (`None` and `0.0` are falsy). -/
def truthy : Option ℚ → Bool
  | none => false
  | some q => decide (q ≠ 0)

/-- Zero-pad a natural number to two digits, as Python date/price formatting does. -/
def pad2 (n : ℕ) : String :=
  if n < 10 then "0" ++ toString n else toString n

/-- Ordinal day number (days since 1970-01-01) of a proleptic Gregorian
calendar date.  Used to build the concrete dates appearing in the claims. -/
def daysFromCivil (y m d : ℕ) : ℤ :=
  let y2 := if m ≤ 2 then y - 1 else y
  let era := y2 / 400
  let yoe := y2 % 400
  let doy := (153 * (if 2 < m then m - 3 else m + 9) + 2) / 5 + d - 1
  let doe := yoe * 365 + yoe / 4 - yoe / 100 + doy
  (era * 146097 + doe : ℤ) - 719468

/-- Render an ordinal day number as the `yyyy-mm-dd` string Python's
`str(date)` produces (inverse of `daysFromCivil` on the dates used here). -/
def dateFmt (t : ℤ) : String :=
  let z : ℕ := (t + 719468).toNat
  let era := z / 146097
  let doe := z % 146097
  let yoe := (doe - doe / 1460 + doe / 36524 - doe / 146096) / 365
  let y := yoe + era * 400
  let doy := doe - (365 * yoe + yoe / 4 - yoe / 100)
  let mp := (5 * doy + 2) / 153
  let d := doy - (153 * mp + 2) / 5 + 1
  let m := if mp < 10 then mp + 3 else mp - 9
  let y2 := if m ≤ 2 then y + 1 else y
  toString y2 ++ "-" ++ pad2 m ++ "-" ++ pad2 d

/-- Render an integer number of cents as a two-decimal string. -/
def fmt2i (c : ℤ) : String :=
  (if c < 0 then "-" else "") ++ toString (c.natAbs / 100) ++ "." ++ pad2 (c.natAbs % 100)

/-- Python fixed two-decimal formatting (format spec .2f).  Model rounds half
away from zero; it agrees with Python exactly whenever `q * 100` is an
integer, which holds for every concrete price in the claims. -/
def fmt2 (q : ℚ) : String :=
  fmt2i (if q < 0 then -⌊-q * 100 + 1 / 2⌋ else ⌊q * 100 + 1 / 2⌋)

/-- Embedding of Python str.upper for the ASCII symbols the model uses. -/
def strUpper (s : String) : String :=
  ⟨s.data.map Char.toUpper⟩

/-- The `Fund` object of src/core.py: symbol, currency, instrument type, the
ordered `dates_prices` series and the optional user-given name. -/
structure Fund where
  symbol : String
  currency : String
  instrument_type : String
  dates_prices : List (ℤ × Option ℚ)
  name : Option String
  deriving DecidableEq, Repr

/-- Embedding of `Fund.__init__`: upper-cases symbol, currency and instrument
type; the date strings arrive already converted to ordinal day numbers. -/
def Fund.init (symbol currency instrument_type : String)
    (dates_prices : List (ℤ × Option ℚ)) (nm : Option String) : Fund :=
  { symbol := strUpper symbol
    currency := strUpper currency
    instrument_type := strUpper instrument_type
    dates_prices := dates_prices
    name := nm }

/-- The possible right-hand operands of `Fund.__eq__`: a `Fund`, a `str`, or
any other Python value (represented only by a tag). -/
inductive PyVal where
  | fund (f : Fund)
  | str (s : String)
  | otherVal (tag : String)

/-- Embedding of `Fund.__eq__` (src/core.py): compares symbols when `other`
is a `Fund`, compares `self.symbol` to the raw string when `other` is a
`str`, and raises `CoreError` otherwise. -/
def fundEq (self : Fund) (other : PyVal) : Except PyErr Bool :=
  match other with
  | .fund g => .ok (if self.symbol = g.symbol then true else false)
  | .str s => .ok (if self.symbol = s then true else false)
  | .otherVal _ => .error .coreError

/-- Embedding of `Fund.__str__` (src/core.py): when the last point's price is
truthy it is displayed, otherwise the second-to-last point's price is used
(`dates_prices[-2]`, an `IndexError` when absent, a `TypeError` when that
price is `None` under `'{:.2f}'`); the displayed date is always the last
point's date. -/
def fundStr (f : Fund) : Except PyErr String :=
  match f.dates_prices.getLast? with
  | none => .error .indexError
  | some lastdp =>
    let fp : Except PyErr String :=
      if truthy lastdp.2 then
        .ok (fmt2 (lastdp.2.getD 0))
      else
        match f.dates_prices.dropLast.getLast? with
        | none => .error .indexError
        | some prevdp =>
          match prevdp.2 with
          | some p => .ok (fmt2 p)
          | none => .error .typeError
    match fp with
    | .error e => .error e
    | .ok formatted_price =>
      .ok (f.symbol ++ " - " ++ f.name.getD "" ++ "\n" ++
           f.currency ++ " - " ++ f.instrument_type ++ "\n" ++
           "Latest price: " ++ dateFmt lastdp.1 ++ " - $" ++ formatted_price)

/-- Embedding of `FundTracker.calculate_percentage` (src/financeapp.py),
including the `difference = -abs(difference)` step of the decrease branch. -/
def calculate_percentage (first_price last_price : ℚ) : ℚ :=
  if first_price = last_price then 0
  else if first_price > last_price then
    -|(first_price - last_price) / first_price * 100|
  else (last_price - first_price) / last_price * 100

/-- Embedding of `FundTracker.day_performance`: `most_current` is
`dates_prices[-1]`, the target is one day earlier, and the `for` loop
overwrites `day_before` on every match. -/
def day_performance (fund : Fund) : Except PyErr (Option ℚ × Fund) :=
  match fund.dates_prices.getLast? with
  | none => .error .indexError
  | some most_current =>
    let day_ago_price : ℤ := most_current.1 - 1
    let day_before :=
      fund.dates_prices.foldl
        (fun acc date_price =>
          if date_price.1 = day_ago_price then some date_price else acc)
        none
    match day_before with
    | some db =>
      match db.2, most_current.2 with
      | some p, some q => .ok (some (calculate_percentage p q), fund)
      | _, _ => .error .typeError
    | none => .ok (none, fund)

/-- Embedding of `FundTracker.week_performance`: as `day_performance` with a
`timedelta(weeks = 1)` (7 day) lookback. -/
def week_performance (fund : Fund) : Except PyErr (Option ℚ × Fund) :=
  match fund.dates_prices.getLast? with
  | none => .error .indexError
  | some most_current =>
    let week_ago_date : ℤ := most_current.1 - 7
    let week_before :=
      fund.dates_prices.foldl
        (fun acc date_price =>
          if date_price.1 = week_ago_date then some date_price else acc)
        none
    match week_before with
    | some wb =>
      match wb.2, most_current.2 with
      | some p, some q => .ok (some (calculate_percentage p q), fund)
      | _, _ => .error .typeError
    | none => .ok (none, fund)

/-- Embedding of `FundTracker.year_performance`: as `day_performance` with a
`timedelta(weeks = 52)` (364 day) lookback. -/
def year_performance (fund : Fund) : Except PyErr (Option ℚ × Fund) :=
  match fund.dates_prices.getLast? with
  | none => .error .indexError
  | some most_current =>
    let year_ago_date : ℤ := most_current.1 - 364
    let year_before :=
      fund.dates_prices.foldl
        (fun acc date_price =>
          if date_price.1 = year_ago_date then some date_price else acc)
        none
    match year_before with
    | some yb =>
      match yb.2, most_current.2 with
      | some p, some q => .ok (some (calculate_percentage p q), fund)
      | _, _ => .error .typeError
    | none => .ok (none, fund)

/-- Embedding of `FundTracker.generate_fund_performance_str`: starts from
`fund.__str__()` and appends one line per requested window, formatting the
lookup's first component with `'{:.2f}'` — a `TypeError` when that component
is `None`. -/
def generate_fund_performance_str (fund : Fund) (day week year : Bool) :
    Except PyErr String := do
  let performance ← fundStr fund
  let performance ←
    if day then do
      let r ← day_performance fund
      match r.1 with
      | some v => pure (performance ++ "\n" ++ "Previous 24 hours: " ++ fmt2 v ++ "%")
      | none => Except.error PyErr.typeError
    else pure performance
  let performance ←
    if week then do
      let r ← week_performance fund
      match r.1 with
      | some v => pure (performance ++ "\n" ++ "Previous week: " ++ fmt2 v ++ "%")
      | none => Except.error PyErr.typeError
    else pure performance
  let performance ←
    if year then do
      let r ← year_performance fund
      match r.1 with
      | some v => pure (performance ++ "\n" ++ "Previous year: " ++ fmt2 v ++ "%")
      | none => Except.error PyErr.typeError
    else pure performance
  pure performance

/-- Python values occurring in a YahooFinancials payload, as consumed by
`FundTracker.parse_fund_data`. -/
inductive PyData where
  | pynone
  | pystr (s : String)
  | pynum (q : ℚ)
  | pylist (l : List PyData)
  | pydict (d : List (String × PyData))

/-- First value stored under a key in a Python dict (keys are unique). -/
def lookupKey (d : List (String × PyData)) (k : String) : Option PyData :=
  match d with
  | [] => none
  | kv :: rest => if kv.1 = k then some kv.2 else lookupKey rest k

/-- Python `v[k]`: a `KeyError` when the key is missing, a `TypeError` when
`v` is not a dict. -/
def pyGetItem (v : PyData) (k : String) : Except PyErr PyData :=
  match v with
  | .pydict d =>
    match lookupKey d k with
    | some val => .ok val
    | none => .error .keyError
  | _ => .error .typeError

/-- Embedding of `FundTracker.parse_fund_data` (src/financeapp.py): takes the
first key as the symbol (`IndexError` on an empty dict), reads `currency`,
`instrumentType` and `prices` from the nested entry, and extracts
`[day['formatted_date'], day['close']]` from every price record.  The final
`return None or desired_data` always returns `desired_data`; there is no
exception handling anywhere in the function. -/
def parse_fund_data (data : List (String × PyData)) :
    Except PyErr (String × PyData × PyData × List (PyData × PyData)) := do
  let symbol ← match data.head? with
    | some kv => Except.ok kv.1
    | none => Except.error PyErr.indexError
  let entry ← match lookupKey data symbol with
    | some v => Except.ok v
    | none => Except.error PyErr.keyError
  let currency ← pyGetItem entry "currency"
  let instrument_type ← pyGetItem entry "instrumentType"
  let all_dates_prices ← pyGetItem entry "prices"
  let days ← match all_dates_prices with
    | PyData.pylist l => Except.ok l
    | _ => Except.error PyErr.typeError
  let dates_prices ← days.mapM (fun day => do
    let d ← pyGetItem day "formatted_date"
    let c ← pyGetItem day "close"
    pure (d, c))
  pure (symbol, currency, instrument_type, dates_prices)

/-- Declarative description of one fixed-window lookback, written from the
amended specification: the `current` point is given explicitly, the target
date is `current.1 - window`, and among the points whose date equals the
target the LAST one in series order supplies the comparison price. -/
def lookupSpec (f : Fund) (current : ℤ × Option ℚ) (window : ℤ) :
    Except PyErr (Option ℚ × Fund) :=
  match (f.dates_prices.filter (fun dp => decide (dp.1 = current.1 - window))).getLast? with
  | none => .ok (none, f)
  | some found =>
    match found.2, current.2 with
    | some p, some q => .ok (some (calculate_percentage p q), f)
    | _, _ => .error .typeError

deriving instance DecidableEq for Except

theorem getLast?_cons_or {α : Type} (a : α) (l : List α) :
    (a :: l).getLast? = l.getLast?.or (some a) := by
  induction l generalizing a with
  | nil => rfl
  | cons b t ih =>
    rw [List.getLast?_cons_cons, ih b]
    cases h : t.getLast? <;> rfl

/-- The overwrite-on-match loop of the performance functions keeps the last
matching element: folding is the `getLast?` of the filtered list, falling
back to the initial accumulator. -/
theorem foldl_overwrite {α : Type} (q : α → Prop) [DecidablePred q] :
    ∀ (l : List α) (acc : Option α),
      l.foldl (fun acc x => if q x then some x else acc) acc
        = ((l.filter (fun x => decide (q x))).getLast?).or acc := by
  intro l
  induction l with
  | nil => intro acc; rfl
  | cons a t ih =>
    intro acc
    rw [List.foldl_cons, ih]
    by_cases h : q a
    · rw [if_pos h, List.filter_cons, if_pos (by simpa using h), getLast?_cons_or]
      cases hh : (t.filter (fun x => decide (q x))).getLast? <;> rfl
    · rw [if_neg h, List.filter_cons, if_neg (by simpa using h)]

theorem day_performance_eq (f : Fund) (mc : ℤ × Option ℚ)
    (hmc : f.dates_prices.getLast? = some mc) :
    day_performance f = lookupSpec f mc 1 := by
  unfold day_performance lookupSpec
  rw [hmc]
  dsimp only
  rw [foldl_overwrite (fun dp : ℤ × Option ℚ => dp.1 = mc.1 - 1) f.dates_prices none]
  cases hfl : (f.dates_prices.filter
      (fun dp : ℤ × Option ℚ => decide (dp.1 = mc.1 - 1))).getLast? <;> rfl

theorem week_performance_eq (f : Fund) (mc : ℤ × Option ℚ)
    (hmc : f.dates_prices.getLast? = some mc) :
    week_performance f = lookupSpec f mc 7 := by
  unfold week_performance lookupSpec
  rw [hmc]
  dsimp only
  rw [foldl_overwrite (fun dp : ℤ × Option ℚ => dp.1 = mc.1 - 7) f.dates_prices none]
  cases hfl : (f.dates_prices.filter
      (fun dp : ℤ × Option ℚ => decide (dp.1 = mc.1 - 7))).getLast? <;> rfl

theorem year_performance_eq (f : Fund) (mc : ℤ × Option ℚ)
    (hmc : f.dates_prices.getLast? = some mc) :
    year_performance f = lookupSpec f mc 364 := by
  unfold year_performance lookupSpec
  rw [hmc]
  dsimp only
  rw [foldl_overwrite (fun dp : ℤ × Option ℚ => dp.1 = mc.1 - 364) f.dates_prices none]
  cases hfl : (f.dates_prices.filter
      (fun dp : ℤ × Option ℚ => decide (dp.1 = mc.1 - 364))).getLast? <;> rfl

theorem truthy_of_ne (q : ℚ) (h : q ≠ 0) : truthy (some q) = true := by
  simp [truthy, h]

theorem fmt2_eval (q : ℚ) (c : ℤ) (hq : ¬q < 0) (hc : ⌊q * 100 + 1 / 2⌋ = c) :
    fmt2 q = fmt2i c := by
  unfold fmt2
  rw [if_neg hq, hc]

theorem fmt2_7842 : fmt2 (78.42 : ℚ) = "78.42" := by
  rw [fmt2_eval (78.42 : ℚ) 7842 (by norm_num) (by norm_num)]
  decide

/-- Concrete fund with a strictly descending (most recent first) series, the
ordering asserted by the specification. -/
def exF2 : Fund :=
  Fund.init "F" "USD" "STOCK" [(10, some 100), (9, some 50), (8, some 40)] none

/-- Concrete fund with the two points of claim C6 in the order the claim
states them (most recent first, its price absent). -/
def exF6 : Fund :=
  Fund.init "FXAIX" "USD" "MUTUALFUND"
    [(daysFromCivil 2022 4 5, none), (daysFromCivil 2022 4 4, some 78.42)] none

/-- The two points of claim C6 in ascending order (most recent last). -/
def exF6A : Fund :=
  Fund.init "FXAIX" "USD" "MUTUALFUND"
    [(daysFromCivil 2022 4 4, some 78.42), (daysFromCivil 2022 4 5, none)] none

/-- Concrete fund with a single point: every lookback target is absent. -/
def exF7 : Fund := Fund.init "F" "USD" "STOCK" [(0, some 100)] none

/-- The two points of claim C9 in the order the claim states them. -/
def exF9 : Fund := Fund.init "F" "USD" "STOCK" [(0, some 100), (-7, some 80)] none

/-- The two points of claim C9 in ascending order, for an arbitrary d0. -/
def exF9A (d0 : ℤ) : Fund :=
  Fund.init "F" "USD" "STOCK" [(d0 - 7, some 80), (d0, some 100)] none

/-- Concrete fund with two distinct points dated exactly one day before the
last point. -/
def exF10 : Fund :=
  Fund.init "F" "USD" "STOCK" [(9, some 50), (9, some 60), (10, some 100)] none

/-- C1: for valid (positive) price pairs, the percentage change is exactly 0
when the prices agree; exactly the negated decrease formula, divided by the
first price and hence negative, when the first price is larger; and exactly
the increase formula, divided by the last price and hence positive, when the
first price is smaller. -/
theorem claim_C1 (first_price last_price : ℚ)
    (h1 : 0 < first_price) (h2 : 0 < last_price) :
    (first_price = last_price → calculate_percentage first_price last_price = 0) ∧
    (last_price < first_price →
      calculate_percentage first_price last_price
          = -((first_price - last_price) / first_price * 100) ∧
      calculate_percentage first_price last_price < 0) ∧
    (first_price < last_price →
      calculate_percentage first_price last_price
          = (last_price - first_price) / last_price * 100 ∧
      0 < calculate_percentage first_price last_price) := by
  refine ⟨fun h => by simp [calculate_percentage, h], fun h => ?_, fun h => ?_⟩
  · have hne : first_price ≠ last_price := (ne_of_lt h).symm
    have hpos : 0 < (first_price - last_price) / first_price * 100 :=
      mul_pos (div_pos (by linarith) h1) (by norm_num)
    have hval : calculate_percentage first_price last_price
        = -((first_price - last_price) / first_price * 100) := by
      simp only [calculate_percentage, if_neg hne, if_pos h]
      rw [abs_of_pos hpos]
    exact ⟨hval, by rw [hval]; linarith⟩
  · have hne : first_price ≠ last_price := ne_of_lt h
    have hngt : ¬(first_price > last_price) := not_lt.mpr h.le
    have hpos : 0 < (last_price - first_price) / last_price * 100 :=
      mul_pos (div_pos (by linarith) h2) (by norm_num)
    have hval : calculate_percentage first_price last_price
        = (last_price - first_price) / last_price * 100 := by
      simp only [calculate_percentage, if_neg hne, if_neg hngt]
    exact ⟨hval, by rw [hval]; exact hpos⟩

/-- Witness for C1 at the concrete valid pair (1, 2). -/
theorem claim_C1_witness :
    (0 : ℚ) < 1 ∧ (0 : ℚ) < 2 ∧
    (calculate_percentage 1 2 = (2 - 1) / 2 * 100 ∧
      0 < calculate_percentage 1 2) :=
  ⟨by norm_num, by norm_num,
    (claim_C1 1 2 (by norm_num) (by norm_num)).2.2 (by norm_num)⟩

/-- C2 counterexample: for the descending series [(10, 100), (9, 50), (8, 40)]
the most recent point is (10, 100) and a point exists dated exactly one day
before it, so the claim predicts the day lookup yields the percentage change
from 50 to 100, which is 50; the code instead searches one day before the
LAST point (date 8), finds nothing and returns the absent value. -/
theorem claim_C2_counterexample :
    List.Pairwise (fun a b : ℤ × Option ℚ => b.1 < a.1) exF2.dates_prices ∧
    exF2.dates_prices.head? = some (10, some 100) ∧
    (9, some (50 : ℚ)) ∈ exF2.dates_prices ∧
    calculate_percentage 50 100 = 50 ∧
    day_performance exF2 = Except.ok (none, exF2) ∧
    day_performance exF2 ≠ Except.ok (some 50, exF2) :=
  ⟨by decide, by decide, by decide, by norm_num [calculate_percentage],
    by decide, by decide⟩

/-- C2 (amended): every fixed-window lookup takes the LAST point of the
series as its current point — the most recent point only when the series
ascends by date — and searches the whole series for a point dated exactly 1,
7, or 364 days earlier, the last match in series order winning. -/
theorem claim_C2 (f : Fund) (mc : ℤ × Option ℚ)
    (hmc : f.dates_prices.getLast? = some mc) :
    day_performance f = lookupSpec f mc 1 ∧
    week_performance f = lookupSpec f mc 7 ∧
    year_performance f = lookupSpec f mc 364 :=
  ⟨day_performance_eq f mc hmc, week_performance_eq f mc hmc,
    year_performance_eq f mc hmc⟩

/-- Witness for C2 at the concrete fund exF2, whose last point is (8, 40). -/
theorem claim_C2_witness :
    exF2.dates_prices.getLast? = some (8, some 40) ∧
    (day_performance exF2 = lookupSpec exF2 (8, some 40) 1 ∧
      week_performance exF2 = lookupSpec exF2 (8, some 40) 7 ∧
      year_performance exF2 = lookupSpec exF2 (8, some 40) 364) :=
  ⟨by decide, claim_C2 exF2 (8, some 40) (by decide)⟩

/-- C3: Fund equality is decided solely by the construction-normalised
symbol: two constructed funds are equal exactly when their upper-cased
symbols agree (so equality is reflexive and case-insensitive in the
construction inputs), while against a raw string the normalised symbol is
compared to the string as-is, with no normalisation on the string side. -/
theorem claim_C3 :
    (∀ (s1 s2 ca cb ia ib : String) (dpa dpb : List (ℤ × Option ℚ))
        (na nb : Option String),
      fundEq (Fund.init s1 ca ia dpa na) (PyVal.fund (Fund.init s2 cb ib dpb nb))
        = Except.ok (decide (strUpper s1 = strUpper s2))) ∧
    (∀ f : Fund, fundEq f (PyVal.fund f) = Except.ok true) ∧
    (∀ (f : Fund) (s : String),
      fundEq f (PyVal.str s) = Except.ok (decide (f.symbol = s))) ∧
    fundEq (Fund.init "FXAIX" "usd" "stock" [] none)
        (PyVal.fund (Fund.init "fxaix" "x" "y" [] none)) = Except.ok true ∧
    fundEq (Fund.init "fxaix" "usd" "stock" [] none) (PyVal.str "FXAIX")
        = Except.ok true ∧
    fundEq (Fund.init "fxaix" "usd" "stock" [] none) (PyVal.str "fxaix")
        = Except.ok false := by
  refine ⟨?_, ?_, ?_, by decide, by decide, by decide⟩
  · intro s1 s2 ca cb ia ib dpa dpb na nb
    by_cases h : strUpper s1 = strUpper s2 <;> simp [fundEq, Fund.init, h]
  · intro f
    simp [fundEq]
  · intro f s
    by_cases h : f.symbol = s <;> simp [fundEq, h]

/-- C4: comparing a Fund with a value that is neither a Fund nor a string
always raises CoreError; it never returns a boolean. -/
theorem claim_C4 :
    ∀ (f : Fund) (tag : String),
      fundEq f (PyVal.otherVal tag) = Except.error PyErr.coreError ∧
      ∀ b : Bool, fundEq f (PyVal.otherVal tag) ≠ Except.ok b := by
  intro f tag
  refine ⟨rfl, ?_⟩
  intro b h
  exact Except.noConfusion h

/-- C5: whenever no point of the series is dated exactly at the target
lookback date, the lookup returns the absent value paired with the fund —
a normal return, neither an exception nor zero. -/
theorem claim_C5 (f : Fund) (mc : ℤ × Option ℚ)
    (hmc : f.dates_prices.getLast? = some mc) :
    ((∀ dp ∈ f.dates_prices, dp.1 ≠ mc.1 - 1) →
      day_performance f = Except.ok (none, f)) ∧
    ((∀ dp ∈ f.dates_prices, dp.1 ≠ mc.1 - 7) →
      week_performance f = Except.ok (none, f)) ∧
    ((∀ dp ∈ f.dates_prices, dp.1 ≠ mc.1 - 364) →
      year_performance f = Except.ok (none, f)) := by
  refine ⟨fun h => ?_, fun h => ?_, fun h => ?_⟩
  · rw [day_performance_eq f mc hmc]
    unfold lookupSpec
    rw [List.filter_eq_nil_iff.mpr (by simpa using h)]
    rfl
  · rw [week_performance_eq f mc hmc]
    unfold lookupSpec
    rw [List.filter_eq_nil_iff.mpr (by simpa using h)]
    rfl
  · rw [year_performance_eq f mc hmc]
    unfold lookupSpec
    rw [List.filter_eq_nil_iff.mpr (by simpa using h)]
    rfl

/-- Witness for C5 at the single-point fund exF7: one day of history, so all
three lookback targets are absent. -/
theorem claim_C5_witness :
    exF7.dates_prices.getLast? = some (0, some 100) ∧
    (∀ dp ∈ exF7.dates_prices, dp.1 ≠ (0 : ℤ) - 1) ∧
    day_performance exF7 = Except.ok (none, exF7) ∧
    week_performance exF7 = Except.ok (none, exF7) ∧
    year_performance exF7 = Except.ok (none, exF7) :=
  ⟨by decide, by decide,
    (claim_C5 exF7 (0, some 100) (by decide)).1 (by decide),
    (claim_C5 exF7 (0, some 100) (by decide)).2.1 (by decide),
    (claim_C5 exF7 (0, some 100) (by decide)).2.2 (by decide)⟩

/-- C6 counterexample: with the two points in the order the claim states
(most recent first, its price absent), the code displays the LAST point —
the latest-price line reads 2022-04-04, not 2022-04-05, and no fallback
happens because the last point carries the price 78.42. -/
theorem claim_C6_counterexample :
    fundStr exF6
      = Except.ok "FXAIX - \nUSD - MUTUALFUND\nLatest price: 2022-04-04 - $78.42" ∧
    fundStr exF6
      ≠ Except.ok "FXAIX - \nUSD - MUTUALFUND\nLatest price: 2022-04-05 - $78.42" := by
  have ht : truthy (some (78.42 : ℚ)) = true := truthy_of_ne _ (by norm_num)
  have hstr : fundStr exF6
      = Except.ok "FXAIX - \nUSD - MUTUALFUND\nLatest price: 2022-04-04 - $78.42" := by
    unfold fundStr
    rw [show exF6.dates_prices.getLast?
        = some (daysFromCivil 2022 4 4, some (78.42 : ℚ)) from rfl]
    dsimp only
    rw [ht, show ((some (78.42 : ℚ)).getD 0) = (78.42 : ℚ) from rfl, fmt2_7842]
    decide
  exact ⟨hstr, by rw [hstr]; decide⟩

/-- C6 (amended): with the same two points in ascending order — price 78.42
dated 2022-04-04 followed by an absent price dated 2022-04-05 — the summary
string is exactly the claimed one: the absent last price falls back one step
to the second-to-last price while the displayed date stays the last date. -/
theorem claim_C6 :
    fundStr exF6A
      = Except.ok "FXAIX - \nUSD - MUTUALFUND\nLatest price: 2022-04-05 - $78.42" := by
  unfold fundStr
  rw [show exF6A.dates_prices.getLast?
      = some (daysFromCivil 2022 4 5, (none : Option ℚ)) from rfl]
  dsimp only
  rw [show exF6A.dates_prices.dropLast.getLast?
      = some (daysFromCivil 2022 4 4, some (78.42 : ℚ)) from rfl]
  dsimp only
  rw [fmt2_7842]
  decide

/-- C7: the code does NOT render a placeholder for an absent lookup: at a
fund with a single point every lookback is absent, and the performance
string generator raises a TypeError from applying the two-decimal format to
the absent value, instead of returning any string. -/
theorem claim_C7 :
    day_performance exF7 = Except.ok (none, exF7) ∧
    generate_fund_performance_str exF7 true true true
      = Except.error PyErr.typeError ∧
    ∀ s : String,
      generate_fund_performance_str exF7 true true true ≠ Except.ok s := by
  have hgen : generate_fund_performance_str exF7 true true true
      = Except.error PyErr.typeError := by decide
  refine ⟨by decide, hgen, ?_⟩
  intro s h
  rw [hgen] at h
  exact Except.noConfusion h

/-- C8: parse_fund_data raises on malformed payload shapes instead of
returning an absent value: an empty payload raises IndexError, and a payload
whose nested entry lacks the currency key raises KeyError. -/
theorem claim_C8 :
    parse_fund_data [] = Except.error PyErr.indexError ∧
    parse_fund_data [("F", PyData.pydict [])] = Except.error PyErr.keyError :=
  ⟨rfl, rfl⟩

/-- C9 counterexample: with the points in the order the claim states (most
recent first), the week lookup takes the LAST point (d0 - 7, 80) as current,
targets d0 - 14, finds nothing and returns the absent value; moreover even
the claimed value 25 is wrong for this code, because the increase branch
divides by the last price: the percentage change from 80 to 100 is 20. -/
theorem claim_C9_counterexample :
    week_performance exF9 = Except.ok (none, exF9) ∧
    week_performance exF9 ≠ Except.ok (some 25, exF9) ∧
    calculate_percentage 80 100 = 20 ∧
    (20 : ℚ) ≠ 25 :=
  ⟨by decide, by decide, by norm_num [calculate_percentage], by norm_num⟩

/-- C9 (amended): with the two points in ascending order — price 80 dated
d0 - 7 followed by price 100 dated d0 — the week lookup returns the
percentage change from 80 to 100, and that value equals 20. -/
theorem claim_C9 :
    ∀ d0 : ℤ,
      week_performance (exF9A d0)
        = Except.ok (some (calculate_percentage 80 100), exF9A d0) ∧
      calculate_percentage 80 100 = 20 := by
  intro d0
  have h2 : ¬((d0 : ℤ) = d0 - 7) := by omega
  constructor
  · rw [week_performance_eq (exF9A d0) (d0, some 100) rfl]
    simp [lookupSpec, exF9A, Fund.init, List.filter_cons, h2]
  · norm_num [calculate_percentage]

/-- C10: each lookup scans the entire series without stopping at the first
hit: whenever the filtered sub-series of points dated at the target is
non-empty, the comparison price used is the one of its LAST element in
series order. -/
theorem claim_C10 (f : Fund) (mc dp : ℤ × Option ℚ)
    (hmc : f.dates_prices.getLast? = some mc) :
    ((f.dates_prices.filter (fun x => decide (x.1 = mc.1 - 1))).getLast? = some dp →
      ∀ p q : ℚ, dp.2 = some p → mc.2 = some q →
        day_performance f = Except.ok (some (calculate_percentage p q), f)) ∧
    ((f.dates_prices.filter (fun x => decide (x.1 = mc.1 - 7))).getLast? = some dp →
      ∀ p q : ℚ, dp.2 = some p → mc.2 = some q →
        week_performance f = Except.ok (some (calculate_percentage p q), f)) ∧
    ((f.dates_prices.filter (fun x => decide (x.1 = mc.1 - 364))).getLast? = some dp →
      ∀ p q : ℚ, dp.2 = some p → mc.2 = some q →
        year_performance f = Except.ok (some (calculate_percentage p q), f)) := by
  refine ⟨fun hf p q hp hq => ?_, fun hf p q hp hq => ?_, fun hf p q hp hq => ?_⟩
  · rw [day_performance_eq f mc hmc]
    unfold lookupSpec
    rw [hf]
    dsimp only
    rw [hp, hq]
  · rw [week_performance_eq f mc hmc]
    unfold lookupSpec
    rw [hf]
    dsimp only
    rw [hp, hq]
  · rw [year_performance_eq f mc hmc]
    unfold lookupSpec
    rw [hf]
    dsimp only
    rw [hp, hq]

/-- Witness for C10 at the concrete fund exF10, where two points are dated
one day before the last point and the later of the two (price 60) wins. -/
theorem claim_C10_witness :
    exF10.dates_prices.getLast? = some (10, some 100) ∧
    (exF10.dates_prices.filter (fun x => decide (x.1 = (10 : ℤ) - 1))).getLast?
      = some (9, some 60) ∧
    day_performance exF10
      = Except.ok (some (calculate_percentage 60 100), exF10) :=
  ⟨by decide, by decide,
    (claim_C10 exF10 (10, some 100) (9, some 60) (by decide)).1 (by decide)
      60 100 rfl rfl⟩

end FinanceApp
